import Mathlib

/-!
Shallow embedding of the products-management CRUD API
(`src/app/routers/category.py`, request shapes from `src/app/schemas.py`).

The relational store is modelled as in-memory lists of rows; each request
handler becomes a function from the store (and the parsed request) to an
`Except ApiError` result, with the successor store returned explicitly by
the mutating handlers.  Prices are embedded as `Rat`: every price
comparison in the source is an order comparison, which `Rat` models
faithfully.
-/

namespace ProductsApi

/-- Modelled from the spec: `app/models.py` is not part of the sources, so the
`Product` row shape follows spec section 3: identifier, name, optional
description, non-negative price, stock flag, and a required foreign
reference `category_id`. -/
structure Product where
  id : Nat
  name : String
  description : Option String
  price : Rat
  in_stock : Bool
  category_id : Nat
  deriving Repr, DecidableEq

/-- Modelled from the spec: `app/models.py` is not part of the sources, so the
`Category` row shape follows spec section 3: identifier, unique name,
optional description.  Its products are the `Product` rows whose
`category_id` equals its id (one-to-many relationship). -/
structure Category where
  id : Nat
  name : String
  description : Option String
  deriving Repr, DecidableEq

/-- The relational store: the `Category` and `Product` tables, plus the
next server-generated category identifier (autoincrement counter). -/
structure Store where
  categories : List Category
  products : List Product
  nextCategoryId : Nat
  deriving Repr, DecidableEq

/-- Errors surfaced by the handlers: `HTTPException(404, detail)` becomes
`notFound detail`, `HTTPException(400, detail)` becomes
`invalidArgument detail`. -/
inductive ApiError where
  | notFound (detail : String)
  | invalidArgument (detail : String)
  deriving Repr, DecidableEq

/-- `session.query(Category).get(cid)` / `.filter(Category.id == cid).first()`:
first category row with the given id. -/
def findCategory (s : Store) (cid : Nat) : Option Category :=
  s.categories.find? (fun c => c.id == cid)

/-- `session.query(Product).filter(Product.id == pid).first()`. -/
def findProduct (s : Store) (pid : Nat) : Option Product :=
  s.products.find? (fun p => p.id == pid)

/-- `existing_category.products.count()`: number of product rows linked to
the category through their foreign key. -/
def linkedProductCount (s : Store) (cid : Nat) : Nat :=
  (s.products.filter (fun p => p.category_id == cid)).length

/-- Request body of `POST /` (`CategoryCreate` in `schemas.py`): required
name, optional description. -/
structure CategoryCreate where
  name : String
  description : Option String
  deriving Repr, DecidableEq

/-- Request body of `PUT /{category_id}` (`CategoryUpdate` in `schemas.py`):
both fields optional, `none` meaning absent. -/
structure CategoryUpdate where
  name : Option String
  description : Option String
  deriving Repr, DecidableEq

/-- Handler `get_one_category`: return the category or fail 404. -/
def get_one_category (s : Store) (cid : Nat) : Except ApiError Category :=
  match findCategory s cid with
  | none => .error (.notFound "Category not found.")
  | some c => .ok c

/-- Handler `create_category`: reject a duplicate name, otherwise insert a
new row with the server-assigned id and return it. -/
def create_category (s : Store) (data : CategoryCreate) :
    Except ApiError (Category × Store) :=
  if (s.categories.find? (fun c => c.name == data.name)).isSome then
    .error (.invalidArgument "Category with this name already exists")
  else
    let newCategory : Category :=
      { id := s.nextCategoryId, name := data.name, description := data.description }
    .ok (newCategory,
      { s with
        categories := s.categories ++ [newCategory],
        nextCategoryId := s.nextCategoryId + 1 })

/-- Handler `update_category`: 404 when the id is unknown; then the
duplicate-name re-check `session.query(Category).filter(Category.name ==
data.name).first()` scans the whole table (the updated row included; when
`data.name` is absent the comparison is `name IS NULL`, matching no row);
then each field is overwritten only when its new value is truthy. -/
def update_category (s : Store) (cid : Nat) (data : CategoryUpdate) :
    Except ApiError (Category × Store) :=
  match findCategory s cid with
  | none => .error (.notFound "Category not found")
  | some c =>
    if (s.categories.find? (fun x =>
          match data.name with
          | some nm => x.name == nm
          | none => false)).isSome then
      .error (.invalidArgument "Category with name \x27Electronics\x27 already exists")
    else
      let c' : Category :=
        { c with
          name := match data.name with
            | some nm => if nm ≠ "" then nm else c.name
            | none => c.name,
          description := match data.description with
            | some d => if d ≠ "" then some d else c.description
            | none => c.description }
      .ok (c',
        { s with
          categories := s.categories.map (fun x => if x.id == cid then c' else x) })

/-- Handler `delete_category`: 404 when the id is unknown; 400 naming the
exact linked-product count when it is positive; otherwise the row is
deleted. -/
def delete_category (s : Store) (cid : Nat) : Except ApiError Store :=
  match findCategory s cid with
  | none => .error (.notFound "Category not found")
  | some c =>
    let n := linkedProductCount s c.id
    if n > 0 then
      .error (.invalidArgument
        ("Cannot delete category. " ++ toString n ++
          " products are linked to this category"))
    else
      .ok { s with categories := s.categories.eraseP (fun x => x.id == cid) }

/-- Request body of `PUT /{product_id}` (`ProductUpdateRequest` in
`schemas.py`): every field optional; `none` embeds a field absent from the
request body (pydantic `exclude_unset=True` drops it). -/
structure ProductUpdateRequest where
  name : Option String
  description : Option String
  price : Option Rat
  in_stock : Option Bool
  category_id : Option Nat
  deriving Repr, DecidableEq

/-- The `for key, value in update_data.items(): setattr(product, key, value)`
loop of `update_product`: each field present in the request overwrites the
row field, absent fields are untouched. -/
def applyProductUpdate (p : Product) (u : ProductUpdateRequest) : Product :=
  { p with
    name := u.name.getD p.name,
    description := match u.description with
      | some d => some d
      | none => p.description,
    price := u.price.getD p.price,
    in_stock := u.in_stock.getD p.in_stock,
    category_id := u.category_id.getD p.category_id }

/-- Handler `update_product`: 404 when the product id is unknown, otherwise
the supplied fields are written onto the row (no check of any kind on the
new `category_id`) and the updated row is returned. -/
def update_product (s : Store) (pid : Nat) (u : ProductUpdateRequest) :
    Except ApiError (Product × Store) :=
  match findProduct s pid with
  | none =>
    .error (.notFound ("Product with id " ++ toString pid ++ " not found"))
  | some p =>
    let p' := applyProductUpdate p u
    .ok (p',
      { s with products := s.products.map (fun q => if q.id == pid then p' else q) })

/-- Case-insensitive substring test: SQL `name ILIKE '%needle%'`.  An
occurrence of the needle splits the haystack into at least two pieces. -/
def ilikeContains (hay needle : String) : Bool :=
  (hay.toLower.splitOn needle.toLower).length != 1

/-- The enumerated `sort_by` values accepted by the advanced-search
`Query(regex=...)` validation. -/
inductive SortKey where
  | price_asc
  | price_desc
  | name_asc
  | name_desc
  deriving Repr, DecidableEq

/-- Insertion of one row into a list sorted by `le` (used to embed the SQL
`ORDER BY` of the handlers; its stability mirrors one admissible order on
ties, which the source leaves to the database). -/
def insertLe {α : Type} (le : α → α → Bool) (x : α) : List α → List α
  | [] => [x]
  | y :: ys => if le x y then x :: y :: ys else y :: insertLe le x ys

/-- Sorting by `le` via repeated insertion. -/
def sortLe {α : Type} (le : α → α → Bool) : List α → List α
  | [] => []
  | x :: xs => insertLe le x (sortLe le xs)

/-- The `ORDER BY` directive chosen by `advanced_search_products` from
`sort_by`; absent means the store order is kept. -/
def sortProducts (sk : Option SortKey) (ps : List Product) : List Product :=
  match sk with
  | none => ps
  | some .price_asc => sortLe (fun a b => a.price ≤ b.price) ps
  | some .price_desc => sortLe (fun a b => b.price ≤ a.price) ps
  | some .name_asc => sortLe (fun a b => a.name ≤ b.name) ps
  | some .name_desc => sortLe (fun a b => b.name ≤ a.name) ps

/-- Query parameters of `GET /advanced-search` after FastAPI validation:
optional name (min length 1), optional positive category id, optional
non-negative price bounds, optional stock flag, optional sort key, and
`limit`/`offset` with their defaults. -/
structure AdvancedSearchParams where
  name : Option String
  category_id : Option Nat
  min_price : Option Rat
  max_price : Option Rat
  in_stock : Option Bool
  sort_by : Option SortKey
  limit : Nat
  offset : Nat
  deriving Repr, DecidableEq

/-- The conjunction of the filter predicates `advanced_search_products`
adds to the query, in source order; the name and category filters are
guarded by Python truthiness (`if name:`, `if category_id:`), so an empty
name or a zero category id adds no filter. -/
def advMatches (q : AdvancedSearchParams) (p : Product) : Bool :=
  (match q.name with
    | some nm => if nm ≠ "" then ilikeContains p.name nm else true
    | none => true) &&
  (match q.category_id with
    | some cid => if cid ≠ 0 then p.category_id == cid else true
    | none => true) &&
  (match q.min_price with
    | some mn => decide (mn ≤ p.price)
    | none => true) &&
  (match q.max_price with
    | some mx => decide (p.price ≤ mx)
    | none => true) &&
  (match q.in_stock with
    | some b => p.in_stock == b
    | none => true)

/-- Shape of `PaginatedProductsResponse`. -/
structure PaginatedProducts where
  total : Nat
  limit : Nat
  offset : Nat
  items : List Product
  deriving Repr, DecidableEq

/-- The filter/count/sort/paginate tail of `advanced_search_products`,
reached after both early validations: the total is counted on the filtered
query before `ORDER BY`, `OFFSET` and `LIMIT` are attached. -/
def advancedSearchBody (s : Store) (q : AdvancedSearchParams) : PaginatedProducts :=
  let filtered := s.products.filter (advMatches q)
  let total := filtered.length
  let sorted := sortProducts q.sort_by filtered
  let items := (sorted.drop q.offset).take q.limit
  { total := total, limit := q.limit, offset := q.offset, items := items }

/-- The first validation of `advanced_search_products`: both bounds
present and `min_price > max_price`. -/
def priceBoundsConflict (q : AdvancedSearchParams) : Bool :=
  match q.min_price, q.max_price with
  | some mn, some mx => decide (mx < mn)
  | _, _ => false

/-- Handler `advanced_search_products`: reject contradictory price bounds
first, then a nonexistent category id, and only then build and run the
product query. -/
def advanced_search_products (s : Store) (q : AdvancedSearchParams) :
    Except ApiError PaginatedProducts :=
  if priceBoundsConflict q then
    .error (.invalidArgument "min_price cannot be greater than max_price")
  else
    match q.category_id with
    | some cid =>
      if (findCategory s cid).isNone then
        .error (.notFound ("Category with id " ++ toString cid ++ " not found"))
      else advancedSearchBody s q |> .ok
    | none => advancedSearchBody s q |> .ok

/-- The session effect of the advanced-search handler: it issues no
`add`/`delete`/`commit`, so the store after the request is the store
before it; the pair returned here is (response, resulting store). -/
def advanced_search_run (s : Store) (q : AdvancedSearchParams) :
    Except ApiError PaginatedProducts × Store :=
  (advanced_search_products s q, s)

/-- Query parameters of `GET /count`. -/
structure CountParams where
  category_id : Option Nat
  in_stock : Option Bool
  deriving Repr, DecidableEq

/-- Shape of `ProductsCountResponse`. -/
structure ProductsCount where
  total : Nat
  in_stock : Nat
  out_of_stock : Nat
  deriving Repr, DecidableEq

/-- The query built by `get_products_count`: the category filter (when the
parameter is present) then the stock filter (when present), attached in
source order. -/
def countFiltered (s : Store) (q : CountParams) : List Product :=
  let base := match q.category_id with
    | some cid => s.products.filter (fun p => p.category_id == cid)
    | none => s.products
  match q.in_stock with
  | some b => base.filter (fun p => p.in_stock == b)
  | none => base

/-- Handler `get_products_count`: verify the category exists when the
parameter is present, then `total` counts the filtered query, `in_stock`
counts the same query further filtered on `in_stock == True`, and
`out_of_stock` is the complement `total - in_stock`. -/
def get_products_count (s : Store) (q : CountParams) :
    Except ApiError ProductsCount :=
  match q.category_id with
  | some cid =>
    if (findCategory s cid).isNone then
      .error (.notFound ("Category with id " ++ toString cid ++ " not found"))
    else
      let f := countFiltered s q
      let total := f.length
      let inStockCount := (f.filter (fun p => p.in_stock == true)).length
      .ok { total := total, in_stock := inStockCount,
            out_of_stock := total - inStockCount }
  | none =>
    let f := countFiltered s q
    let total := f.length
    let inStockCount := (f.filter (fun p => p.in_stock == true)).length
    .ok { total := total, in_stock := inStockCount,
          out_of_stock := total - inStockCount }

/-- Shape of `ProductSummary` (id, name, price of an extremal product). -/
structure ProductSummary where
  id : Nat
  name : String
  price : Rat
  deriving Repr, DecidableEq

/-- Shape of `ProductsStatisticsResponse`; `none` embeds JSON `null`. -/
structure ProductsStatistics where
  total_products : Nat
  total_categories : Nat
  in_stock_count : Nat
  out_of_stock_count : Nat
  average_price : Option Rat
  min_price : Option Rat
  max_price : Option Rat
  most_expensive_product : Option ProductSummary
  cheapest_product : Option ProductSummary
  deriving Repr, DecidableEq

/-- SQL `MIN` over a column: `NULL` on an empty set, else the least value. -/
def sqlMin (xs : List Rat) : Option Rat :=
  match xs with
  | [] => none
  | x :: rest => some (rest.foldl min x)

/-- SQL `MAX` over a column: `NULL` on an empty set, else the greatest value. -/
def sqlMax (xs : List Rat) : Option Rat :=
  match xs with
  | [] => none
  | x :: rest => some (rest.foldl max x)

/-- SQL `AVG` over a column: `NULL` on an empty set, else sum over count. -/
def sqlAvg (xs : List Rat) : Option Rat :=
  match xs with
  | [] => none
  | _ => some (xs.sum / (xs.length : Rat))

/-- Handler `get_products_statistics`: plain aggregate queries; the
extremal products are the first rows of the price-ordered queries, and the
out-of-stock count falls back to `0` when the product count is falsy. -/
def get_products_statistics (s : Store) : ProductsStatistics :=
  let total_products := s.products.length
  let total_categories := s.categories.length
  let in_stock_count := (s.products.filter (fun p => p.in_stock == true)).length
  let out_of_stock_count :=
    if total_products ≠ 0 then total_products - in_stock_count else 0
  let prices := s.products.map (fun p => p.price)
  let most_expensive :=
    (sortLe (fun a b => b.price ≤ a.price) s.products).head?
  let cheapest :=
    (sortLe (fun a b => a.price ≤ b.price) s.products).head?
  { total_products := total_products,
    total_categories := total_categories,
    in_stock_count := in_stock_count,
    out_of_stock_count := out_of_stock_count,
    average_price := sqlAvg prices,
    min_price := sqlMin prices,
    max_price := sqlMax prices,
    most_expensive_product :=
      most_expensive.map (fun p => ⟨p.id, p.name, p.price⟩),
    cheapest_product :=
      cheapest.map (fun p => ⟨p.id, p.name, p.price⟩) }

/-- A sample store used by the concrete witnesses: one category and the two
products of the spec's count example. -/
def sampleStore : Store :=
  ⟨[⟨1, "A", none⟩],
   [⟨1, "p1", none, 10, true, 1⟩, ⟨2, "p2", none, 30, false, 1⟩], 2⟩

/-- After erasing the row with a given id from a table whose ids are
pairwise distinct, no row with that id can be found. -/
theorem find_eraseP_eq_none (l : List Category) (cid : Nat)
    (h : (l.map Category.id).Nodup) :
    (l.eraseP (fun c => c.id == cid)).find? (fun c => c.id == cid) = none := by
  induction l with
  | nil => simp
  | cons c tl ih =>
    rw [List.map_cons, List.nodup_cons] at h
    by_cases hc : c.id = cid
    · rw [List.eraseP_cons_of_pos (by simp [hc])]
      rw [List.find?_eq_none]
      intro x hx
      simp only [beq_iff_eq]
      intro hxid
      exact h.1 (List.mem_map.2 ⟨x, hx, by rw [hxid, hc]⟩)
    · rw [List.eraseP_cons_of_neg (by simp [hc])]
      rw [List.find?_cons_of_neg _ (by simp [hc])]
      exact ih h.2

/-- C8: on an empty product collection the statistics handler succeeds and
reports every price aggregate and extremal product as absent and the
out-of-stock count as zero. -/
theorem statistics_empty_products (s : Store) (h : s.products = []) :
    (get_products_statistics s).average_price = none ∧
    (get_products_statistics s).min_price = none ∧
    (get_products_statistics s).max_price = none ∧
    (get_products_statistics s).most_expensive_product = none ∧
    (get_products_statistics s).cheapest_product = none ∧
    (get_products_statistics s).out_of_stock_count = 0 := by
  simp [get_products_statistics, sqlAvg, sqlMin, sqlMax, sortLe, h]

/-- Witness for C8: the sample store with its products removed. -/
theorem statistics_empty_products_witness :
    ({ sampleStore with products := [] } : Store).products = [] ∧
    (get_products_statistics { sampleStore with products := [] }).average_price = none ∧
    (get_products_statistics { sampleStore with products := [] }).min_price = none ∧
    (get_products_statistics { sampleStore with products := [] }).max_price = none ∧
    (get_products_statistics { sampleStore with products := [] }).most_expensive_product = none ∧
    (get_products_statistics { sampleStore with products := [] }).cheapest_product = none ∧
    (get_products_statistics { sampleStore with products := [] }).out_of_stock_count = 0 := by
  refine ⟨rfl, ?_⟩
  exact statistics_empty_products { sampleStore with products := [] } rfl

/-- C5: whenever both price bounds are supplied and the lower one exceeds
the upper one, advanced search fails with the Invalid-Argument detail, for
every store and every value of all other parameters, and the session state
it returns is the input store unchanged. -/
theorem advanced_search_min_gt_max (s : Store) (q : AdvancedSearchParams)
    (mn mx : Rat) (hmn : q.min_price = some mn) (hmx : q.max_price = some mx)
    (hlt : mx < mn) :
    advanced_search_run s q =
      (.error (.invalidArgument "min_price cannot be greater than max_price"), s) := by
  simp [advanced_search_run, advanced_search_products, priceBoundsConflict,
    hmn, hmx, hlt]

/-- Witness for C5: bounds 50 and 10 on the sample store, with a
nonexistent category id also supplied. -/
theorem advanced_search_min_gt_max_witness :
    (⟨none, some 7, some 50, some 10, none, none, 20, 0⟩ :
        AdvancedSearchParams).min_price = some 50 ∧
    (⟨none, some 7, some 50, some 10, none, none, 20, 0⟩ :
        AdvancedSearchParams).max_price = some 10 ∧
    (10 : Rat) < 50 ∧
    advanced_search_run sampleStore ⟨none, some 7, some 50, some 10, none, none, 20, 0⟩ =
      (.error (.invalidArgument "min_price cannot be greater than max_price"), sampleStore) := by
  refine ⟨rfl, rfl, by norm_num, ?_⟩
  exact advanced_search_min_gt_max sampleStore _ 50 10 rfl rfl (by norm_num)

/-- C2: deleting an existing category with zero linked products succeeds
and removes it (the products table is untouched); deleting one with n ≥ 1
linked products fails with an Invalid-Argument detail naming exactly n. -/
theorem delete_category_spec (s : Store) (cid : Nat) (c : Category)
    (hwf : (s.categories.map Category.id).Nodup)
    (hc : findCategory s cid = some c) :
    (linkedProductCount s cid = 0 →
      ∃ s', delete_category s cid = .ok s' ∧
        findCategory s' cid = none ∧ s'.products = s.products) ∧
    (∀ n, linkedProductCount s cid = n → 0 < n →
      delete_category s cid = .error (.invalidArgument
        ("Cannot delete category. " ++ toString n ++
          " products are linked to this category"))) := by
  have hcid : c.id = cid := by
    have := List.find?_some hc
    simpa using this
  constructor
  · intro h0
    refine ⟨{ s with categories := s.categories.eraseP (fun x => x.id == cid) },
      ?_, ?_, rfl⟩
    · unfold delete_category
      rw [hc]
      simp [hcid, h0]
    · unfold findCategory
      exact find_eraseP_eq_none s.categories cid hwf
  · intro n hn hpos
    unfold delete_category
    rw [hc]
    simp only [hcid, hn]
    rw [if_pos hpos]

/-- Witness for C2: both branches on concrete stores — the sample store's
category has two linked products and cannot be deleted; the same store
without products deletes it. -/
theorem delete_category_spec_witness :
    (linkedProductCount { sampleStore with products := [] } 1 = 0 ∧
      ∃ s', delete_category { sampleStore with products := [] } 1 = .ok s' ∧
        findCategory s' 1 = none ∧
        s'.products = ({ sampleStore with products := [] } : Store).products) ∧
    (linkedProductCount sampleStore 1 = 2 ∧
      delete_category sampleStore 1 = .error (.invalidArgument
        ("Cannot delete category. " ++ toString 2 ++
          " products are linked to this category"))) := by
  constructor
  · refine ⟨by decide, ?_⟩
    exact (delete_category_spec { sampleStore with products := [] } 1 ⟨1, "A", none⟩
      (by decide) (by decide)).1 (by decide)
  · refine ⟨by decide, ?_⟩
    exact (delete_category_spec sampleStore 1 ⟨1, "A", none⟩
      (by decide) (by decide)).2 2 (by decide) (by decide)

/-- Looking up a freshly appended row by its id succeeds when no earlier
row carries that id. -/
theorem find_append_fresh (l : List Category) (c : Category)
    (h : ∀ x ∈ l, x.id ≠ c.id) :
    (l ++ [c]).find? (fun x => x.id == c.id) = some c := by
  induction l with
  | nil => simp
  | cons y tl ih =>
    have hy : ¬(y.id == c.id) = true := by
      simp only [beq_iff_eq]
      exact h y (List.mem_cons_self y tl)
    rw [List.cons_append,
      List.find?_cons_of_neg (p := fun x : Category => x.id == c.id) _ hy]
    exact ih (fun x hx => h x (List.mem_cons_of_mem y hx))

/-- C9: creating a category whose name is not already taken succeeds with
the server-assigned id, and getting that id back returns a category with
the name and description of the create request.  The freshness hypothesis
states that the autoincrement counter is ahead of every existing row. -/
theorem create_then_get (s : Store) (data : CategoryCreate)
    (hfresh : ∀ c ∈ s.categories, c.id < s.nextCategoryId)
    (hname : ∀ c ∈ s.categories, c.name ≠ data.name) :
    ∃ c s', create_category s data = .ok (c, s') ∧
      get_one_category s' c.id = .ok c ∧
      c.name = data.name ∧ c.description = data.description := by
  have hdup : (s.categories.find? (fun c => c.name == data.name)) = none := by
    rw [List.find?_eq_none]
    intro x hx
    simp only [beq_iff_eq]
    exact hname x hx
  refine ⟨{ id := s.nextCategoryId, name := data.name, description := data.description },
    { s with
      categories := s.categories ++
        [{ id := s.nextCategoryId, name := data.name, description := data.description }],
      nextCategoryId := s.nextCategoryId + 1 },
    ?_, ?_, rfl, rfl⟩
  · unfold create_category
    rw [hdup]
    rfl
  · unfold get_one_category findCategory
    rw [find_append_fresh s.categories _
      (fun x hx => Nat.ne_of_lt (hfresh x hx))]

/-- Witness for C9: creating a category named B on the sample store and
reading it back. -/
theorem create_then_get_witness :
    (∀ c ∈ sampleStore.categories, c.id < sampleStore.nextCategoryId) ∧
    (∀ c ∈ sampleStore.categories, c.name ≠ "B") ∧
    ∃ c s', create_category sampleStore ⟨"B", some "d"⟩ = .ok (c, s') ∧
      get_one_category s' c.id = .ok c ∧
      c.name = "B" ∧ c.description = some "d" := by
  refine ⟨by decide, by decide, ?_⟩
  exact create_then_get sampleStore ⟨"B", some "d"⟩ (by decide) (by decide)

/-- C4: a partial product update modifies exactly the supplied fields:
every absent field keeps its prior value, every supplied field takes the
supplied value, the row identity is preserved, and every other product row
is untouched. -/
theorem update_product_partial (s : Store) (pid : Nat) (p : Product)
    (u : ProductUpdateRequest) (p' : Product) (s' : Store)
    (hp : findProduct s pid = some p)
    (hr : update_product s pid u = .ok (p', s')) :
    (u.name = none → p'.name = p.name) ∧
    (∀ v, u.name = some v → p'.name = v) ∧
    (u.description = none → p'.description = p.description) ∧
    (∀ v, u.description = some v → p'.description = some v) ∧
    (u.price = none → p'.price = p.price) ∧
    (∀ v, u.price = some v → p'.price = v) ∧
    (u.in_stock = none → p'.in_stock = p.in_stock) ∧
    (∀ v, u.in_stock = some v → p'.in_stock = v) ∧
    (u.category_id = none → p'.category_id = p.category_id) ∧
    (∀ v, u.category_id = some v → p'.category_id = v) ∧
    p'.id = p.id ∧
    (∀ q ∈ s.products, q.id ≠ pid → q ∈ s'.products) := by
  unfold update_product at hr
  rw [hp] at hr
  have hp' : p' = applyProductUpdate p u := by
    cases hr
    rfl
  have hs' : s' = { s with
      products := s.products.map
        (fun q => if q.id == pid then applyProductUpdate p u else q) } := by
    cases hr
    rfl
  subst hp' hs'
  refine ⟨?_, ?_, ?_, ?_, ?_, ?_, ?_, ?_, ?_, ?_, rfl, ?_⟩
  · intro h; simp [applyProductUpdate, h]
  · intro v h; simp [applyProductUpdate, h]
  · intro h; simp [applyProductUpdate, h]
  · intro v h; simp [applyProductUpdate, h]
  · intro h; simp [applyProductUpdate, h]
  · intro v h; simp [applyProductUpdate, h]
  · intro h; simp [applyProductUpdate, h]
  · intro v h; simp [applyProductUpdate, h]
  · intro h; simp [applyProductUpdate, h]
  · intro v h; simp [applyProductUpdate, h]
  · intro q hq hqid
    have : (fun x => if x.id == pid then applyProductUpdate p u else x) q = q := by
      simp [hqid]
    exact this ▸ List.mem_map_of_mem _ hq

/-- Witness for C4: on the sample store, updating product 2 with only a
price of 20 keeps its name, description, stock flag and category. -/
theorem update_product_partial_witness :
    findProduct sampleStore 2 = some ⟨2, "p2", none, 30, false, 1⟩ ∧
    update_product sampleStore 2 ⟨none, none, some 20, none, none⟩ =
      .ok (⟨2, "p2", none, 20, false, 1⟩,
        ⟨[⟨1, "A", none⟩],
         [⟨1, "p1", none, 10, true, 1⟩, ⟨2, "p2", none, 20, false, 1⟩], 2⟩) ∧
    ((⟨2, "p2", none, 20, false, 1⟩ : Product).name = "p2" ∧
     (⟨2, "p2", none, 20, false, 1⟩ : Product).price = 20 ∧
     (⟨2, "p2", none, 20, false, 1⟩ : Product).in_stock = false ∧
     (⟨2, "p2", none, 20, false, 1⟩ : Product).category_id = 1) := by
  refine ⟨by decide, rfl, ?_, by decide, by decide, by decide⟩
  have h := update_product_partial sampleStore 2 ⟨2, "p2", none, 30, false, 1⟩
    ⟨none, none, some 20, none, none⟩ ⟨2, "p2", none, 20, false, 1⟩
    ⟨[⟨1, "A", none⟩],
     [⟨1, "p1", none, 10, true, 1⟩, ⟨2, "p2", none, 20, false, 1⟩], 2⟩
    (by decide) rfl
  exact h.1 rfl

/-- C10: updating an existing product with a category id that references
no category succeeds — the handler checks nothing about the new foreign
key (with the product present, every update request succeeds) — and
leaves the product pointing at a nonexistent category. -/
theorem update_product_dangling_category (s : Store) (pid : Nat) (p : Product)
    (cid : Nat) (hp : findProduct s pid = some p)
    (hcid : findCategory s cid = none) :
    (∀ u, (update_product s pid u).isOk = true) ∧
    ∃ p' s', update_product s pid ⟨none, none, none, none, some cid⟩ = .ok (p', s') ∧
      p'.category_id = cid ∧ findCategory s' cid = none := by
  constructor
  · intro u
    unfold update_product
    rw [hp]
    rfl
  · refine ⟨applyProductUpdate p ⟨none, none, none, none, some cid⟩,
      { s with
        products := s.products.map (fun q =>
          if q.id == pid then applyProductUpdate p ⟨none, none, none, none, some cid⟩
          else q) },
      ?_, ?_, ?_⟩
    · unfold update_product
      rw [hp]
    · simp [applyProductUpdate]
    · exact hcid

/-- Witness for C10: pointing product 2 of the sample store at the absent
category 99. -/
theorem update_product_dangling_category_witness :
    findProduct sampleStore 2 = some ⟨2, "p2", none, 30, false, 1⟩ ∧
    findCategory sampleStore 99 = none ∧
    ((∀ u, (update_product sampleStore 2 u).isOk = true) ∧
      ∃ p' s', update_product sampleStore 2 ⟨none, none, none, none, some 99⟩ =
          .ok (p', s') ∧
        p'.category_id = 99 ∧ findCategory s' 99 = none) := by
  refine ⟨by decide, by decide, ?_⟩
  exact update_product_dangling_category sampleStore 2 ⟨2, "p2", none, 30, false, 1⟩
    99 (by decide) (by decide)

/-- The conjunction of the two optional filters of `get_products_count`,
for comparison with the sequentially built query. -/
def countMatches (q : CountParams) (p : Product) : Bool :=
  (match q.category_id with
    | some cid => p.category_id == cid
    | none => true) &&
  (match q.in_stock with
    | some b => p.in_stock == b
    | none => true)

/-- The sequentially attached filters of the count query coincide with one
pass over the conjunction. -/
theorem countFiltered_eq_filter (s : Store) (q : CountParams) :
    countFiltered s q = s.products.filter (countMatches q) := by
  unfold countFiltered countMatches
  cases q.category_id <;> cases q.in_stock <;>
    simp [List.filter_filter, Bool.and_comm]

/-- C7: with a valid filter, the count handler reports the number of
matching products, the number of those in stock, and the out-of-stock
count as the complement of the two. -/
theorem get_products_count_spec (s : Store) (q : CountParams)
    (hcat : ∀ cid, q.category_id = some cid → (findCategory s cid).isSome) :
    ∃ r, get_products_count s q = .ok r ∧
      r.total = (s.products.filter (countMatches q)).length ∧
      r.in_stock = ((s.products.filter (countMatches q)).filter
        (fun p => p.in_stock)).length ∧
      r.out_of_stock = r.total - r.in_stock := by
  have hok : get_products_count s q = .ok
      { total := (countFiltered s q).length,
        in_stock := ((countFiltered s q).filter (fun p => p.in_stock == true)).length,
        out_of_stock := (countFiltered s q).length -
          ((countFiltered s q).filter (fun p => p.in_stock == true)).length } := by
    unfold get_products_count
    cases hc : q.category_id with
    | none => rfl
    | some cid =>
      obtain ⟨c, hcval⟩ := Option.isSome_iff_exists.1 (hcat cid hc)
      simp [hcval]
  refine ⟨_, hok, ?_, ?_, rfl⟩
  · simp [countFiltered_eq_filter]
  · simp [countFiltered_eq_filter]

/-- Witness for C7: the spec's example — two products, one in stock, no
filter — yields total 2, in-stock 1, out-of-stock 1. -/
theorem get_products_count_spec_witness :
    (∀ cid, (⟨none, none⟩ : CountParams).category_id = some cid →
      (findCategory sampleStore cid).isSome) ∧
    get_products_count sampleStore ⟨none, none⟩ = .ok ⟨2, 1, 1⟩ ∧
    ∃ r, get_products_count sampleStore ⟨none, none⟩ = .ok r ∧
      r.total = (sampleStore.products.filter (countMatches ⟨none, none⟩)).length ∧
      r.in_stock = ((sampleStore.products.filter (countMatches ⟨none, none⟩)).filter
        (fun p => p.in_stock)).length ∧
      r.out_of_stock = r.total - r.in_stock := by
  refine ⟨?_, rfl, ?_⟩
  · intro cid h
    cases h
  · exact get_products_count_spec sampleStore ⟨none, none⟩ (fun cid h => by cases h)

/-- C6: with consistent price bounds and a category id that matches no
category, advanced search fails Not-Found, and the failure is independent
of the product table — no product row influences the outcome. -/
theorem advanced_search_nonexistent_category (s : Store) (q : AdvancedSearchParams)
    (cid : Nat) (hcid : q.category_id = some cid)
    (hbounds : ∀ mn mx, q.min_price = some mn → q.max_price = some mx → mn ≤ mx)
    (hnone : findCategory s cid = none) :
    ∀ ps : List Product,
      advanced_search_products { s with products := ps } q =
        .error (.notFound ("Category with id " ++ toString cid ++ " not found")) := by
  intro ps
  have hguard : priceBoundsConflict q = false := by
    unfold priceBoundsConflict
    cases hmn : q.min_price with
    | none => rfl
    | some mn =>
      cases hmx : q.max_price with
      | none => rfl
      | some mx =>
        simp only [decide_eq_false_iff_not, not_lt]
        exact hbounds mn mx hmn hmx
  have hnone' : findCategory { s with products := ps } cid = none := hnone
  unfold advanced_search_products
  simp [hguard, hcid, hnone']

/-- Witness for C6: bounds 5 ≤ 10 with the absent category 7 on the sample
store. -/
theorem advanced_search_nonexistent_category_witness :
    (⟨none, some 7, some 5, some 10, none, none, 20, 0⟩ :
        AdvancedSearchParams).category_id = some 7 ∧
    (∀ mn mx,
      (⟨none, some 7, some 5, some 10, none, none, 20, 0⟩ :
          AdvancedSearchParams).min_price = some mn →
      (⟨none, some 7, some 5, some 10, none, none, 20, 0⟩ :
          AdvancedSearchParams).max_price = some mx → mn ≤ mx) ∧
    findCategory sampleStore 7 = none ∧
    ∀ ps : List Product,
      advanced_search_products { sampleStore with products := ps }
          ⟨none, some 7, some 5, some 10, none, none, 20, 0⟩ =
        .error (.notFound ("Category with id " ++ toString 7 ++ " not found")) := by
  refine ⟨rfl, ?_, rfl, ?_⟩
  · intro mn mx h1 h2
    cases h1
    cases h2
    norm_num
  · exact advanced_search_nonexistent_category sampleStore _ 7 rfl
      (fun mn mx h1 h2 => by cases h1; cases h2; norm_num) rfl

/-- C1: a successful advanced search reports as `total` the number of
products matching the filters alone, returns at most `limit` items, and
replacing `sort_by`, `limit` and `offset` by any other values never
changes the reported total. -/
theorem advanced_search_total_spec (s : Store) (q : AdvancedSearchParams)
    (r : PaginatedProducts) (h : advanced_search_products s q = .ok r) :
    r.total = (s.products.filter (advMatches q)).length ∧
    r.items.length ≤ q.limit ∧
    ∀ (sk : Option SortKey) (l o : Nat),
      (advanced_search_products s
          { q with sort_by := sk, limit := l, offset := o }).map
        PaginatedProducts.total = .ok r.total := by
  have hg : priceBoundsConflict q = false := by
    by_contra hg'
    rw [Bool.not_eq_false] at hg'
    unfold advanced_search_products at h
    simp [hg'] at h
  have hbody : ∀ sk l o,
      advanced_search_products s { q with sort_by := sk, limit := l, offset := o } =
        .ok (advancedSearchBody s { q with sort_by := sk, limit := l, offset := o }) := by
    intro sk l o
    have hg2 : priceBoundsConflict { q with sort_by := sk, limit := l, offset := o } =
        false := hg
    unfold advanced_search_products at h ⊢
    rw [hg] at h
    rw [hg2]
    simp only [Bool.false_eq_true, if_false] at h ⊢
    cases hcat : q.category_id with
    | none => rfl
    | some cid =>
      rw [hcat] at h
      cases hfind : (findCategory s cid).isNone with
      | true => simp [hfind] at h
      | false => simp [hfind]
  have hr : r = advancedSearchBody s q := by
    have h2 : advanced_search_products s q = .ok (advancedSearchBody s q) :=
      hbody q.sort_by q.limit q.offset
    rw [h2] at h
    exact (Except.ok.inj h).symm
  refine ⟨?_, ?_, ?_⟩
  · rw [hr]
    rfl
  · rw [hr]
    exact List.length_take_le _ _
  · intro sk l o
    rw [hbody sk l o]
    have htot : (advancedSearchBody s
        { q with sort_by := sk, limit := l, offset := o }).total =
        (s.products.filter (advMatches q)).length := rfl
    rw [hr]
    exact congrArg Except.ok htot

/-- Witness for C1: the sample store, no filters, descending price order
and page size 1: the one returned item, total 2. -/
theorem advanced_search_total_spec_witness :
    advanced_search_products sampleStore
        ⟨none, none, none, none, none, some .price_desc, 1, 0⟩ =
      .ok ⟨2, 1, 0, [⟨2, "p2", none, 30, false, 1⟩]⟩ ∧
    (⟨2, 1, 0, [⟨2, "p2", none, 30, false, 1⟩]⟩ : PaginatedProducts).total =
      (sampleStore.products.filter
        (advMatches ⟨none, none, none, none, none, some .price_desc, 1, 0⟩)).length ∧
    (⟨2, 1, 0, [⟨2, "p2", none, 30, false, 1⟩]⟩ : PaginatedProducts).items.length ≤ 1 := by
  have h := advanced_search_total_spec sampleStore
    ⟨none, none, none, none, none, some .price_desc, 1, 0⟩
    ⟨2, 1, 0, [⟨2, "p2", none, 30, false, 1⟩]⟩ rfl
  exact ⟨rfl, h.1, h.2.1⟩

/-- C3 counterexample: in a store whose only category is (id 1, name A),
no category other than it carries the name A, yet updating it while
resubmitting its own name fails with Invalid-Argument — the duplicate-name
re-check scans all categories, the updated one included. -/
theorem update_category_own_name_cex :
    (sampleStore.categories.all (fun c => c.id == 1)) = true ∧
    update_category sampleStore 1 ⟨some "A", none⟩ =
      .error (.invalidArgument
        "Category with name \x27Electronics\x27 already exists") := by
  exact ⟨by decide, rfl⟩

/-- C3 amended: a category-update request for an existing category fails
with Invalid-Argument if and only if some category of the store — the
updated one included — already carries the submitted name; in particular
resubmitting the category's own current name fails rather than
succeeding. -/
theorem update_category_name_conflict (s : Store) (cid : Nat) (c : Category)
    (hc : findCategory s cid = some c) (data : CategoryUpdate) :
    (∃ msg, update_category s cid data = .error (.invalidArgument msg)) ↔
      ∃ x ∈ s.categories, data.name = some x.name := by
  unfold update_category
  rw [hc]
  cases hdup : s.categories.find? (fun x =>
      match data.name with
      | some nm => x.name == nm
      | none => false) with
  | some x =>
    simp only [Option.isSome_some, if_true]
    constructor
    · intro _
      refine ⟨x, List.mem_of_find?_eq_some hdup, ?_⟩
      have hpred := List.find?_some hdup
      cases hn : data.name with
      | none => rw [hn] at hpred; cases hpred
      | some nm =>
        rw [hn] at hpred
        simp only [beq_iff_eq] at hpred
        rw [hpred]
    · intro _
      exact ⟨"Category with name \x27Electronics\x27 already exists", rfl⟩
  | none =>
    simp only [Option.isSome_none, Bool.false_eq_true, if_false]
    constructor
    · intro ⟨msg, hmsg⟩
      cases hmsg
    · intro ⟨x, hx, hn⟩
      have : (s.categories.find? (fun x =>
          match data.name with
          | some nm => x.name == nm
          | none => false)).isSome := by
        refine List.find?_isSome.2 ⟨x, hx, ?_⟩
        rw [hn]
        simp
      rw [hdup] at this
      cases this

/-- Witness for C3 amended: resubmitting the sample category's own name
trips the duplicate check (both sides of the equivalence hold). -/
theorem update_category_name_conflict_witness :
    findCategory sampleStore 1 = some ⟨1, "A", none⟩ ∧
    ((∃ msg, update_category sampleStore 1 ⟨some "A", none⟩ =
        .error (.invalidArgument msg)) ↔
      ∃ x ∈ sampleStore.categories, (some "A" : Option String) = some x.name) := by
  refine ⟨rfl, ?_⟩
  exact update_category_name_conflict sampleStore 1 ⟨1, "A", none⟩ rfl ⟨some "A", none⟩

end ProductsApi
